import Mathlib

/-
Shallow embedding of dpxdt/server/auth.py: the session/ownership access
evaluator (can_user_access_build), the API-key guard (api_key_required),
the key-revocation handler (revoke_api_key) and the find-or-create user
resolution performed by the provider callback (login_auth).

The persistence layer (SQLAlchemy models / queries) is modelled as an
explicit in-memory store passed to each operation; `query.get` on a primary
key becomes a `List.find?` on the stored records.  Flask's request object is
modelled by small structures holding exactly the fields the code reads.
-/

/-- A `models.User` row: `id` is the provider-namespaced string identity,
as created by `login_auth` (line 97: `'%s:%s' % (models.User.GOOGLE_OAUTH2, ...)`). -/
structure User where
  id : String
  email_address : String
  superuser : Bool
  deriving DecidableEq, Repr

/-- A `models.Build` row.  `owners` holds the user ids reachable through the
many-to-many `build.owners` relationship that line 158 filters by id. -/
structure Build where
  id : Int
  public : Bool
  owners : List String
  deriving DecidableEq, Repr

/-- A `models.ApiKey` row.  `build_id` is a nullable integer column, hence
`Option Int`: `none` models an empty/absent build scope. -/
structure ApiKey where
  id : String
  secret : String
  active : Bool
  build_id : Option Int
  superuser : Bool
  deriving DecidableEq, Repr

/-- The identity store: the database tables the module queries and mutates. -/
structure Store where
  users : List User
  builds : List Build
  apiKeys : List ApiKey
  deriving DecidableEq, Repr

/-- `flask.ext.login`'s `current_user`: either the anonymous sentinel
(`is_authenticated()` false) or a session-resolved `User`. -/
inductive Current where
  | anonymous
  | user (u : User)
  deriving DecidableEq, Repr

/-- `current_user.is_authenticated()` (lines 157 and 167). -/
def is_authenticated : Current → Bool
  | Current.anonymous => false
  | Current.user _ => true

/-- Line 155-159: `user_is_owner` is truthy iff the current user is
authenticated and `build.owners.filter_by(id=current_user.get_id()).first()`
finds a row. -/
def is_owner (cur : Current) (build : Build) : Bool :=
  match cur with
  | Current.anonymous => false
  | Current.user u => build.owners.contains u.id

/-- The request fields `can_user_access_build` reads: the build-id parameter
as parsed from the query string (`request.args.get(param_name, type=int)`)
and from the form body (`request.form.get(param_name, type=int)`) — Flask
returns `None` for a missing or non-integer value, hence `Option Int` — plus
the HTTP method and the current request URL. -/
structure AccessRequest where
  args : Option Int
  form : Option Int
  method : String
  url : String
  deriving DecidableEq, Repr

/-- The outcome of `can_user_access_build`: either the resolved build with no
error response (`return None, build`), or the error response produced on the
short-circuit paths (`abort(400)`, `abort(404)`, `abort(403)`,
`login.unauthorized()`). -/
inductive AccessDecision where
  | allow (build : Build)
  | badRequest
  | notFound
  | forbidden
  | requireLogin (next_url : String)
  deriving DecidableEq, Repr

/-- Python's `a or b` on two optional integers (line 143-145): the left value
is kept when it is truthy (present and nonzero), otherwise the right value is
the result. -/
def pyOr (a b : Option Int) : Option Int :=
  match a with
  | some v => if v ≠ 0 then some v else b
  | none => b

/-- Python truthiness of an optional integer: `None` and `0` are falsy. -/
def truthyInt : Option Int → Bool
  | none => false
  | some v => v ≠ 0

/-- Modelled from the spec: the `login` manager (imported via
`from . import login`) is configured outside src/, so its `unauthorized()`
(called at line 172) is modelled from spec section 4.2: it produces the
login-redirect response carrying `next_url` equal to the current request
URL, so that after authenticating the user is routed back. -/
def login_unauthorized (req : AccessRequest) : AccessDecision :=
  AccessDecision.requireLogin req.url

/-- Lines 143-174: `can_user_access_build(param_name)`.  Parses the build id
from args-or-form, 400 when missing/zero, 404 when the build does not exist,
then: owners pass; non-owners are rejected 403 on non-GET methods; public
builds pass on GET; authenticated non-owners get 403; anonymous callers get
the login redirect. -/
def can_user_access_build (store : Store) (cur : Current) (req : AccessRequest) :
    AccessDecision :=
  match pyOr req.args req.form with
  | none => AccessDecision.badRequest
  | some build_id =>
    if build_id = 0 then AccessDecision.badRequest
    else
      match store.builds.find? (fun b => b.id == build_id) with
      | none => AccessDecision.notFound
      | some build =>
        if is_owner cur build then AccessDecision.allow build
        else if req.method ≠ "GET" then AccessDecision.forbidden
        else if build.public then AccessDecision.allow build
        else if is_authenticated cur then AccessDecision.forbidden
        else login_unauthorized req

/-- The request fields `api_key_required`'s wrapped function reads:
`request.authorization` as an optional (username, password) pair and
`request.form.get('build_id', type=int)`. -/
structure ApiRequest where
  authorization : Option (String × String)
  build_id : Option Int
  deriving DecidableEq, Repr

/-- The outcome of running the API-key guard: the wrapped handler is invoked,
or an error response is returned (`abort(403)`, `abort(404)`, the intended
401 challenge), or an uncaught Python `NameError` escapes because the code
read a name that is bound nowhere. -/
inductive ApiOutcome where
  | handlerInvoked
  | unauthorized
  | forbidden
  | notFound
  | nameError (name : String)
  deriving DecidableEq, Repr

/-- Lines 212-250, embedded faithfully: the wrapped function binds
`auth_header = request.authorization` (line 213) and then evaluates
`if not auth:` (line 214).  The name `auth` is bound nowhere in the module
(only `auth_header` is), so Python raises `NameError` there on every call —
whether or not an authorization header is present — before any credential
or scope check and before the wrapped handler can run.  (Were that line
reached with a missing header, the 401 branch would itself fail: it calls
`flask.Response`, but only names from flask are imported, never the module,
and it passes a set literal instead of a header mapping.) -/
def api_key_required_wrapped (_store : Store) (req : ApiRequest) : ApiOutcome :=
  let _auth_header := req.authorization
  ApiOutcome.nameError "auth"

/-- Lines 220-250 of `api_key_required`: the checks the guard performs on the
parsed authorization credentials (username = key id, password = key secret).
Key id lookup failure, inactive key and secret mismatch each give 403;
superuser keys then invoke the handler directly; otherwise the request's
`build_id` form field must be truthy and equal to the key's `build_id`
(`if build_id and api_key.build_id == build_id:`), in which case a missing
build gives 404 and an existing build invokes the handler; any other
combination gives 403. -/
def api_key_check (store : Store) (username password : String)
    (build_id : Option Int) : ApiOutcome :=
  match store.apiKeys.find? (fun k => k.id == username) with
  | none => ApiOutcome.forbidden
  | some api_key =>
    if !api_key.active then ApiOutcome.forbidden
    else if api_key.secret ≠ password then ApiOutcome.forbidden
    else if api_key.superuser then ApiOutcome.handlerInvoked
    else
      match build_id with
      | none => ApiOutcome.forbidden
      | some bid =>
        if bid = 0 then ApiOutcome.forbidden
        else if api_key.build_id == some bid then
          match store.builds.find? (fun b => b.id == bid) with
          | none => ApiOutcome.notFound
          | some _ => ApiOutcome.handlerInvoked
        else ApiOutcome.forbidden

/-- The revocation form (`forms.RevokeApiKeyForm`): forms.py is outside
src/, so validation is modelled as an opaque boolean outcome of
`validate_on_submit()`, alongside the submitted key id read at line 303. -/
structure RevokeForm where
  validates : Bool
  id : String
  deriving DecidableEq, Repr

/-- The outcome of `revoke_api_key`: a redirect to the key-management page
with the (possibly updated) store, an `abort(403)`, or an uncaught
`AttributeError` from dereferencing `api_key.build_id` when the looked-up
key is `None`. -/
inductive RevokeOutcome where
  | redirected (store : Store)
  | forbidden
  | derefNone
  deriving DecidableEq, Repr

/-- The store mutation performed by lines 309-311: the key row with the given
id has its `active` column set to false; every other row is unchanged. -/
def setKeyInactiveList (l : List ApiKey) (kid : String) : List ApiKey :=
  l.map (fun k => if k.id == kid then { k with active := false } else k)

/-- `setKeyInactiveList` lifted to the store. -/
def setKeyInactive (store : Store) (kid : String) : Store :=
  { store with apiKeys := setKeyInactiveList store.apiKeys kid }

/-- Lines 299-313: `revoke_api_key(build)` (the `build` argument has already
been resolved by the `build_access_required('build_id')` guard).  When the
form validates, the key is fetched by the submitted id and
`api_key.build_id != build.id` is evaluated immediately: when the fetch
returned `None` this dereference raises `AttributeError`; a mismatched scope
gives 403; otherwise `active` is set to false and the handler redirects.
A non-validating form falls through to the redirect with no change. -/
def revoke_api_key (store : Store) (build : Build) (form : RevokeForm) :
    RevokeOutcome :=
  if form.validates then
    match store.apiKeys.find? (fun k => k.id == form.id) with
    | none => RevokeOutcome.derefNone
    | some api_key =>
      if api_key.build_id == some build.id then
        RevokeOutcome.redirected (setKeyInactive store form.id)
      else RevokeOutcome.forbidden
  else RevokeOutcome.redirected store

/-- The verified external identity obtained by `login_auth`'s two exchanges:
`result_dict['id']` and `result_dict['email']` of the userinfo response. -/
structure ExternalIdentity where
  subject : String
  email : String
  deriving DecidableEq, Repr

/-- Modelled from the spec: `models.User.GOOGLE_OAUTH2` lives in models.py,
which is outside src/; per spec section 3 it is the provider namespace used
to build ids of the shape `"<provider>:<subject>"`.  Its exact value is
irrelevant to every claim; any fixed string serves. -/
def GOOGLE_OAUTH2 : String := "google_oauth2"

/-- Line 97: `user_id = '%s:%s' % (models.User.GOOGLE_OAUTH2, result_dict['id'])`. -/
def namespaced_user_id (subject : String) : String :=
  GOOGLE_OAUTH2 ++ ":" ++ subject

/-- Lines 97-106 of `login_auth`: compose the namespaced user id, look the
user up; when absent, create a row carrying the identity's email and commit
it; when present, return the stored row unchanged (the email is not
rewritten).  Returns the resolved user and the resulting store.  The
`superuser` column is not set by this code path; its column default is
false. -/
def resolve_user (store : Store) (ext : ExternalIdentity) : User × Store :=
  match store.users.find? (fun u => u.id == namespaced_user_id ext.subject) with
  | some user => (user, store)
  | none =>
    let user : User :=
      { id := namespaced_user_id ext.subject, email_address := ext.email,
        superuser := false }
    (user, { store with users := store.users ++ [user] })

/-
Concrete records used by the witnesses and counterexamples.
-/

/-- A user who owns build 5 and build 6. -/
def uAlice : User :=
  { id := "google_oauth2:111", email_address := "alice@example.com",
    superuser := false }

/-- A user who owns neither build. -/
def uBob : User :=
  { id := "google_oauth2:222", email_address := "bob@example.com",
    superuser := false }

/-- A private build owned by `uAlice`. -/
def bPrivate : Build :=
  { id := 5, public := false, owners := ["google_oauth2:111"] }

/-- A public build owned by `uAlice`. -/
def bPublic : Build :=
  { id := 6, public := true, owners := ["google_oauth2:111"] }

/-- An active key scoped to build 5. -/
def key1 : ApiKey :=
  { id := "k1", secret := "s1", active := true, build_id := some 5,
    superuser := false }

/-- An active non-superuser key with an empty build scope. -/
def keyNoScope : ApiKey :=
  { id := "k2", secret := "s2", active := true, build_id := none,
    superuser := false }

/-- An active superuser key. -/
def keySuper : ApiKey :=
  { id := "k3", secret := "s3", active := true, build_id := none,
    superuser := true }

/-- The store holding the records above. -/
def store1 : Store :=
  { users := [uAlice, uBob], builds := [bPrivate, bPublic],
    apiKeys := [key1, keyNoScope, keySuper] }

/-- A store holding `key1` but no build at all, so the key's scoped build is
missing. -/
def storeNoBuilds : Store :=
  { users := [], builds := [], apiKeys := [key1] }

/-- A validating revocation form naming `key1`. -/
def formR : RevokeForm := { validates := true, id := "k1" }

/-- A validating revocation form naming a key id absent from `store1`. -/
def formAbsent : RevokeForm := { validates := true, id := "nokey" }

/-- `store1` after `key1` has been revoked. -/
def storeRevoked : Store := setKeyInactive store1 "k1"

/-- An external identity seen at first login. -/
def extFirst : ExternalIdentity :=
  { subject := "333", email := "first@example.com" }

/-- The same external identity at a later login, now reporting a different
email address. -/
def extSecond : ExternalIdentity :=
  { subject := "333", email := "second@example.com" }

/-- An empty identity store. -/
def storeEmpty : Store := { users := [], builds := [], apiKeys := [] }

/-- A GET request naming build 5 in the query string. -/
def reqGet5 : AccessRequest :=
  { args := some 5, form := none, method := "GET", url := "/resource/5" }

/-- A POST request naming build 5. -/
def reqPost5 : AccessRequest :=
  { args := some 5, form := none, method := "POST", url := "/resource/5" }

/-- A GET request naming build 6. -/
def reqGet6 : AccessRequest :=
  { args := some 6, form := none, method := "GET", url := "/resource/6" }

/-- A POST request naming build 6. -/
def reqPost6 : AccessRequest :=
  { args := some 6, form := none, method := "POST", url := "/resource/6" }

/-- C1: whenever the current session user is authenticated and is a member of
the owners set of the build the request resolves to, `can_user_access_build`
returns the resolved build with no error response, for every HTTP method and
every value of the build's public flag. -/
theorem owner_always_allowed (store : Store) (u : User) (req : AccessRequest)
    (b : Build) (n : Int)
    (hparse : pyOr req.args req.form = some n) (hn : n ≠ 0)
    (hfind : store.builds.find? (fun x => x.id == n) = some b)
    (hown : b.owners.contains u.id = true) :
    can_user_access_build store (Current.user u) req = AccessDecision.allow b := by
  have hmem : u.id ∈ b.owners := by simpa using hown
  unfold can_user_access_build
  rw [hparse]
  simp [hn, hfind, is_owner, hmem]

/-- C1 witness: `uAlice` owns the private build 5 and a POST is allowed. -/
theorem owner_always_allowed_witness :
    can_user_access_build store1 (Current.user uAlice) reqPost5 =
      AccessDecision.allow bPrivate :=
  owner_always_allowed store1 uAlice reqPost5 bPrivate 5 rfl (by decide)
    (by decide) (by decide)

/-- C2: for a caller who is not an owner of the resolved build, when the
build is public the evaluation allows exactly the read-only method GET and
returns 403 on every other method — the method test sits before the
public-flag test, so the public flag never admits a write. -/
theorem public_build_nonowner_read_only (store : Store) (cur : Current)
    (req : AccessRequest) (b : Build) (n : Int)
    (hparse : pyOr req.args req.form = some n) (hn : n ≠ 0)
    (hfind : store.builds.find? (fun x => x.id == n) = some b)
    (hown : is_owner cur b = false) (hpub : b.public = true) :
    can_user_access_build store cur req =
      if req.method = "GET" then AccessDecision.allow b
      else AccessDecision.forbidden := by
  unfold can_user_access_build
  rw [hparse]
  by_cases hm : req.method = "GET" <;> simp [hn, hfind, hown, hpub, hm]

/-- C2 witness: `uBob` does not own the public build 6; his GET is allowed
and his POST is rejected 403. -/
theorem public_build_nonowner_read_only_witness :
    can_user_access_build store1 (Current.user uBob) reqGet6 =
      AccessDecision.allow bPublic ∧
    can_user_access_build store1 (Current.user uBob) reqPost6 =
      AccessDecision.forbidden :=
  ⟨(public_build_nonowner_read_only store1 (Current.user uBob) reqGet6 bPublic
      6 rfl (by decide) (by decide) (by decide) (by decide)).trans (by decide),
   (public_build_nonowner_read_only store1 (Current.user uBob) reqPost6 bPublic
      6 rfl (by decide) (by decide) (by decide) (by decide)).trans (by decide)⟩

/-- C3: an anonymous caller issuing a GET for an existing private build gets
the login redirect carrying `next_url` equal to the request URL — not a 401
or a 403. -/
theorem anonymous_get_private_redirects_to_login (store : Store)
    (req : AccessRequest) (b : Build) (n : Int)
    (hparse : pyOr req.args req.form = some n) (hn : n ≠ 0)
    (hfind : store.builds.find? (fun x => x.id == n) = some b)
    (hpriv : b.public = false) (hget : req.method = "GET") :
    can_user_access_build store Current.anonymous req =
      AccessDecision.requireLogin req.url := by
  unfold can_user_access_build
  rw [hparse]
  simp [hn, hfind, is_owner, hget, hpriv, is_authenticated, login_unauthorized]

/-- C3 witness: anonymous GET of private build 5 redirects to login with the
request URL as the return target. -/
theorem anonymous_get_private_redirects_to_login_witness :
    can_user_access_build store1 Current.anonymous reqGet5 =
      AccessDecision.requireLogin reqGet5.url :=
  anonymous_get_private_redirects_to_login store1 reqGet5 bPrivate 5 rfl
    (by decide) (by decide) (by decide) rfl

/-- C4: an authenticated session user who is not an owner of an existing
private build gets 403 for every HTTP method, read or write, and never a
login redirect. -/
theorem authenticated_nonowner_private_forbidden (store : Store) (u : User)
    (req : AccessRequest) (b : Build) (n : Int)
    (hparse : pyOr req.args req.form = some n) (hn : n ≠ 0)
    (hfind : store.builds.find? (fun x => x.id == n) = some b)
    (hpriv : b.public = false)
    (hown : b.owners.contains u.id = false) :
    can_user_access_build store (Current.user u) req =
      AccessDecision.forbidden := by
  have hmem : u.id ∉ b.owners := by simpa using hown
  unfold can_user_access_build
  rw [hparse]
  by_cases hm : req.method = "GET" <;>
    simp [hn, hfind, is_owner, hmem, hpriv, is_authenticated, hm]

/-- C4 witness: `uBob` is authenticated but not an owner of private build 5;
both his GET and his POST are rejected 403. -/
theorem authenticated_nonowner_private_forbidden_witness :
    can_user_access_build store1 (Current.user uBob) reqGet5 =
      AccessDecision.forbidden ∧
    can_user_access_build store1 (Current.user uBob) reqPost5 =
      AccessDecision.forbidden :=
  ⟨authenticated_nonowner_private_forbidden store1 uBob reqGet5 bPrivate 5
      rfl (by decide) (by decide) (by decide) (by decide),
   authenticated_nonowner_private_forbidden store1 uBob reqPost5 bPrivate 5
      rfl (by decide) (by decide) (by decide) (by decide)⟩

/-- C5: the guard never produces the intended 401 challenge.  On a request
carrying no authorization header — exactly the input the claim describes —
the wrapped function raises `NameError` on the unbound name `auth` before
performing any check, so no Unauthorized response with a `WWW-Authenticate`
header is ever returned. -/
theorem missing_auth_header_raises_name_error :
    api_key_required_wrapped store1
        { authorization := none, build_id := none } =
      ApiOutcome.nameError "auth" ∧
    api_key_required_wrapped store1
        { authorization := none, build_id := none } ≠
      ApiOutcome.unauthorized :=
  ⟨rfl, by decide⟩

/-- C6: for a stored key that is active and matches the presented secret,
the credential/scope checks of lines 220-250 resolve as claimed: a superuser
key always reaches the handler; a non-superuser key reaches the handler when
the request's nonzero build_id equals the key's build_id and that build
exists, gets 404 when it matches but the build is missing, and gets 403 when
the request's build_id differs from the key's or is absent. -/
theorem api_key_scope_resolution (store : Store) (k : ApiKey) (p : String)
    (b : Option Int)
    (hfind : store.apiKeys.find? (fun x => x.id == k.id) = some k)
    (hact : k.active = true) (hsec : k.secret = p) :
    (k.superuser = true →
      api_key_check store k.id p b = ApiOutcome.handlerInvoked) ∧
    (k.superuser = false →
      (∀ n, b = some n → n ≠ 0 → k.build_id = some n →
        api_key_check store k.id p b =
          if (store.builds.find? (fun x => x.id == n)).isSome
          then ApiOutcome.handlerInvoked
          else ApiOutcome.notFound) ∧
      (∀ n, b = some n → k.build_id ≠ some n →
        api_key_check store k.id p b = ApiOutcome.forbidden) ∧
      (b = none → api_key_check store k.id p b = ApiOutcome.forbidden)) := by
  unfold api_key_check
  rw [hfind]
  refine ⟨fun hsup => by simp [hact, hsec, hsup], fun hsup => ⟨?_, ?_, ?_⟩⟩
  · intro n hb hn hscope
    subst hb
    simp only [hact, hsec, hsup, hn, hscope]
    simp only [Bool.not_true, Bool.false_eq_true, if_false, ne_eq,
      not_true_eq_false, if_true, beq_self_eq_true]
    cases hfb : store.builds.find? (fun x => x.id == n) <;> simp [hfb, hn]
  · intro n hb hscope
    subst hb
    by_cases hn : n = 0
    · simp [hact, hsec, hsup, hn]
    · simp [hact, hsec, hsup, hn, beq_iff_eq, hscope]
  · intro hb
    subst hb
    simp [hact, hsec, hsup]

/-- C6 witness: `key1` (scoped to build 5) is rejected 403 with build_id 7,
admitted with build_id 5, gets 404 when build 5 does not exist, and the
superuser key `keySuper` is admitted with an arbitrary build_id. -/
theorem api_key_scope_resolution_witness :
    api_key_check store1 "k1" "s1" (some 7) = ApiOutcome.forbidden ∧
    api_key_check store1 "k1" "s1" (some 5) = ApiOutcome.handlerInvoked ∧
    api_key_check storeNoBuilds "k1" "s1" (some 5) = ApiOutcome.notFound ∧
    api_key_check store1 "k3" "s3" (some 7) = ApiOutcome.handlerInvoked :=
  ⟨((api_key_scope_resolution store1 key1 "s1" (some 7)
      (by decide) rfl rfl).2 rfl).2.1 7 rfl (by decide),
   (((api_key_scope_resolution store1 key1 "s1" (some 5)
      (by decide) rfl rfl).2 rfl).1 5 rfl (by decide) rfl).trans (by decide),
   (((api_key_scope_resolution storeNoBuilds key1 "s1" (some 5)
      (by decide) rfl rfl).2 rfl).1 5 rfl (by decide) rfl).trans (by decide),
   (api_key_scope_resolution store1 keySuper "s3" (some 7)
      (by decide) rfl rfl).1 rfl⟩

/-- C7 counterexample: `keyNoScope` is validly credentialed (exists, active,
secret matches) and carries an empty build_id, yet the guard does not admit
its requests: both with an arbitrary build_id parameter and with none at
all it returns 403, because `if build_id and api_key.build_id == build_id:`
can never be satisfied when `api_key.build_id` is empty. -/
theorem empty_scope_key_denied :
    api_key_check store1 "k2" "s2" (some 7) = ApiOutcome.forbidden ∧
    api_key_check store1 "k2" "s2" none = ApiOutcome.forbidden := by
  decide

/-- C7 amended: a validly-credentialed non-superuser key whose build_id is
empty is subject to a total restriction — the guard rejects every request of
that key with 403, whatever build_id parameter the request carries; only a
superuser key is free of the build-scope check. -/
theorem empty_scope_key_always_forbidden (store : Store) (k : ApiKey)
    (p : String) (b : Option Int)
    (hfind : store.apiKeys.find? (fun x => x.id == k.id) = some k)
    (hact : k.active = true) (hsec : k.secret = p)
    (hsup : k.superuser = false) (hscope : k.build_id = none) :
    api_key_check store k.id p b = ApiOutcome.forbidden := by
  unfold api_key_check
  rw [hfind]
  cases b with
  | none => simp [hact, hsec, hsup]
  | some n =>
    by_cases hn : n = 0
    · simp [hact, hsec, hsup, hn]
    · simp [hact, hsec, hsup, hn, beq_iff_eq, hscope]

/-- C7 witness for the amended claim: `keyNoScope` is rejected even on a
request naming an existing build. -/
theorem empty_scope_key_always_forbidden_witness :
    api_key_check store1 "k2" "s2" (some 5) = ApiOutcome.forbidden :=
  empty_scope_key_always_forbidden store1 keyNoScope "s2" (some 5)
    (by decide) rfl rfl rfl rfl

/-- Setting one key inactive preserves the result of looking it up by id,
except that the stored row now carries `active = false`. -/
theorem find_setKeyInactiveList (l : List ApiKey) (kid : String) (k : ApiKey)
    (h : l.find? (fun x => x.id == kid) = some k) :
    (setKeyInactiveList l kid).find? (fun x => x.id == kid) =
      some { k with active := false } := by
  induction l with
  | nil => simp at h
  | cons a t ih =>
    simp only [setKeyInactiveList, List.map_cons]
    by_cases ha : (a.id == kid) = true
    · rw [List.find?_cons_of_pos t ha] at h
      injection h with hk
      subst hk
      rw [if_pos ha]
      exact List.find?_cons_of_pos _ ha
    · rw [List.find?_cons_of_neg t (by simpa using ha)] at h
      rw [if_neg ha, List.find?_cons_of_neg _ (by simpa using ha)]
      exact ih h

/-- C8: when the revocation handler succeeds on a validating form naming a
stored key whose scope matches the guarded build, the resulting store holds
that key with `active = false`, and on that store every run of the API-key
credential check naming that key id returns 403, for every presented secret
(matching or not) and every build_id parameter. -/
theorem revoked_key_permanently_forbidden (store : Store) (build : Build)
    (form : RevokeForm) (k : ApiKey) (s2 : Store)
    (hval : form.validates = true)
    (hfind : store.apiKeys.find? (fun x => x.id == form.id) = some k)
    (hscope : k.build_id = some build.id)
    (hrev : revoke_api_key store build form = RevokeOutcome.redirected s2) :
    s2.apiKeys.find? (fun x => x.id == form.id) =
      some { k with active := false } ∧
    ∀ p b, api_key_check s2 form.id p b = ApiOutcome.forbidden := by
  have hs2 : setKeyInactive store form.id = s2 := by
    unfold revoke_api_key at hrev
    simp [hval, hfind, hscope] at hrev
    exact hrev
  have hfindrev : s2.apiKeys.find? (fun x => x.id == form.id) =
      some { k with active := false } := by
    rw [← hs2]
    exact find_setKeyInactiveList store.apiKeys form.id k hfind
  refine ⟨hfindrev, fun p b => ?_⟩
  unfold api_key_check
  rw [hfindrev]
  simp

/-- C8 witness: after revoking `key1` through the handler, the credential
check rejects it even with the correct secret and the formerly admitted
build_id. -/
theorem revoked_key_permanently_forbidden_witness :
    api_key_check storeRevoked "k1" "s1" (some 5) = ApiOutcome.forbidden :=
  (revoked_key_permanently_forbidden store1 bPrivate formR key1 storeRevoked
    rfl (by decide) rfl rfl).2 "s1" (some 5)

/-- C9: resolving the same external identity twice in sequence yields the
same local user id both times, leaves the store of the first resolution
unchanged (no duplicate row), and returns the stored record unchanged — in
particular the stored email survives even when the second login reports a
different email. -/
theorem resolve_user_idempotent (store : Store) (e1 e2 : ExternalIdentity)
    (hsub : e2.subject = e1.subject) :
    ((resolve_user (resolve_user store e1).2 e2).1).id =
      ((resolve_user store e1).1).id ∧
    (resolve_user (resolve_user store e1).2 e2).2 =
      (resolve_user store e1).2 ∧
    (resolve_user (resolve_user store e1).2 e2).1 =
      (resolve_user store e1).1 := by
  have key : resolve_user (resolve_user store e1).2 e2 =
      resolve_user store e1 := by
    unfold resolve_user
    rw [hsub]
    cases hf : store.users.find?
        (fun u => u.id == namespaced_user_id e1.subject) with
    | some u => simp [hf]
    | none =>
      simp only [hf]
      rw [List.find?_append, hf, Option.none_or]
      simp [List.find?]
  exact ⟨by rw [key], by rw [key], by rw [key]⟩

/-- C9 witness: the identity `extFirst`/`extSecond` (same subject, changed
email) resolves to the same user with the first-seen email, and the second
resolution changes nothing. -/
theorem resolve_user_idempotent_witness :
    ((resolve_user (resolve_user storeEmpty extFirst).2 extSecond).1).id =
      ((resolve_user storeEmpty extFirst).1).id ∧
    (resolve_user (resolve_user storeEmpty extFirst).2 extSecond).2 =
      (resolve_user storeEmpty extFirst).2 ∧
    ((resolve_user (resolve_user storeEmpty extFirst).2 extSecond).1
      ).email_address = "first@example.com" :=
  ⟨(resolve_user_idempotent storeEmpty extFirst extSecond rfl).1,
   (resolve_user_idempotent storeEmpty extFirst extSecond rfl).2.1,
   by decide⟩

/-- C10: for every validating revocation form, when the submitted key id
names no stored key the handler reaches the dereference of `None.build_id`
(an uncaught `AttributeError`) rather than a clean 403/404 response; when
the key exists that branch is never reached — the handler is safe exactly
under the precondition that the submitted key id is stored. -/
theorem revoke_derefs_absent_key (store : Store) (build : Build)
    (form : RevokeForm) (hval : form.validates = true) :
    (store.apiKeys.find? (fun x => x.id == form.id) = none →
      revoke_api_key store build form = RevokeOutcome.derefNone) ∧
    (∀ k, store.apiKeys.find? (fun x => x.id == form.id) = some k →
      revoke_api_key store build form ≠ RevokeOutcome.derefNone) := by
  constructor
  · intro hnone
    unfold revoke_api_key
    simp [hval, hnone]
  · intro k hk
    unfold revoke_api_key
    simp only [hval, if_true, hk]
    by_cases hb : (k.build_id == some build.id) = true <;> simp [hb]

/-- C10 witness: submitting a validating revocation form naming the absent
key id "nokey" drives the handler into the `None` dereference. -/
theorem revoke_derefs_absent_key_witness :
    revoke_api_key store1 bPrivate formAbsent = RevokeOutcome.derefNone :=
  (revoke_derefs_absent_key store1 bPrivate formAbsent rfl).1 (by decide)
